import Mathlib

/-!
Verification development for the `ansys/pypim` client library
(`src/ansys/platform/instancemanagement`).

The Python modules are shallowly embedded: the remote gRPC stub is modelled
as a record of response functions, protobuf messages as plain structures,
raised exceptions as explicit error values in `Except`, and in-place object
mutation (`Instance.update`) as explicit state passing.
-/

namespace Pim

/-! ## Wire records (protobuf messages of the PIM v1 API)

`product_instance_manager_pb2`: `Definition`, `Instance`, `Service`.
Protobuf `map<string, string>` fields are modelled as ordered association
lists, matching Python dict iteration order. -/

/-- Wire record `Service{uri, headers}`. -/
structure ServiceV1 where
  uri : String
  headers : List (String × String)
deriving DecidableEq, Repr

/-- Wire record `Instance{name, definition_name, ready, status_message, services}`. -/
structure InstanceV1 where
  name : String
  definition_name : String
  ready : Bool
  status_message : String
  services : List (String × ServiceV1)
deriving DecidableEq, Repr

/-- Wire record `Definition{name, product_name, product_version, available_service_names}`. -/
structure DefinitionV1 where
  name : String
  product_name : String
  product_version : String
  available_service_names : List String
deriving DecidableEq, Repr

/-! ## Transport errors (`grpc.RpcError`) -/

/-- A few members of `grpc.StatusCode`, enough to distinguish the branches
the client inspects (`NOT_FOUND` versus everything else). -/
inductive StatusCode where
  | ok
  | cancelled
  | invalidArgument
  | notFound
  | internal
  | unavailable
deriving DecidableEq, Repr

/-- `grpc.RpcError` as observed by the client: `exc.code()` and `exc.details()`. -/
structure RpcError where
  code : StatusCode
  details : String
deriving DecidableEq, Repr

/-! ## Domain records and exceptions -/

/-- Domain `Service` (service.py): fields `_uri`, `_headers`. -/
structure Service where
  uri : String
  headers : List (String × String)
deriving DecidableEq, Repr

/-- Domain `Instance` (instance.py): the five data fields `_definition_name`,
`_name`, `_ready`, `_status_message`, `_services`.  The `_stub` capability is
passed separately to the operations that use it. -/
structure Instance where
  definition_name : String
  name : String
  ready : Bool
  status_message : String
  services : List (String × Service)
deriving DecidableEq, Repr

/-- Domain `Definition` (definition.py): the four data fields.  The `_stub`
capability is passed separately to `create_instance`. -/
structure Definition where
  name : String
  product_name : String
  product_version : String
  available_service_names : List String
deriving DecidableEq, Repr

/-- The exception classes of exceptions.py that wrap domain failures.
`InstanceNotFoundError` subclasses `RemoteError`; both carry the original
`grpc.Call` as `cause` plus the message given to `super().__init__`. -/
inductive PimError where
  | instanceNotFound (cause : RpcError) (message : String)
  | remoteError (cause : RpcError) (message : String)
  | unsupportedProduct (product_name : String) (product_version : Option String)
  | instanceNotReady (instance_name : String)
  | unsupportedService (instance_name : String) (service_name : String)
deriving DecidableEq, Repr

/-- `str(exc)`: the message each exception class builds in its constructor
(exceptions.py).  `UnsupportedProductError` includes the version only when
`product_version` is truthy (a non-`None`, non-empty string). -/
def PimError.message : PimError → String
  | .instanceNotFound _ m => m
  | .remoteError _ m => m
  | .unsupportedProduct pn pv =>
    match pv with
    | some v =>
      if v = "" then "The remote server does not support " ++ pn ++ "."
      else "The remote server does not support " ++ pn ++ " in version " ++ v ++ "."
    | none => "The remote server does not support " ++ pn ++ "."
  | .instanceNotReady n => n ++ " is not ready"
  | .unsupportedService n s => n ++ " does not support the service \"" ++ s ++ "\""

/-- Everything a client operation can raise: a translated PyPIM exception, an
uncaught `grpc.RpcError` (paths with no `try`/`except`), or an uncaught
`TypeError` from a Python call whose arguments do not fit the callee's
signature. -/
inductive Err where
  | pim (e : PimError)
  | rpcError (e : RpcError)
  | typeError (message : String)
deriving DecidableEq, Repr

/-! ## Translators -/

/-- `Service._from_pim_v1` (service.py): field-for-field construction. -/
def Service.from_pim_v1 (service : ServiceV1) : Service :=
  ⟨service.uri, service.headers⟩

/-- The dict comprehension
`{name: Service._from_pim_v1(value) for name, value in services.items()}`. -/
def servicesFromPim (services : List (String × ServiceV1)) : List (String × Service) :=
  services.map (fun p => (p.1, Service.from_pim_v1 p.2))

/-- `Instance._from_pim_v1` (instance.py): translates the wire record;
performs no validation. -/
def Instance.from_pim_v1 (wire : InstanceV1) : Instance :=
  { definition_name := wire.definition_name
    name := wire.name
    ready := wire.ready
    status_message := wire.status_message
    services := servicesFromPim wire.services }

/-- `Definition._from_pim_v1` (definition.py): constructs the domain record
directly from the wire fields; performs no validation of any field. -/
def Definition.from_pim_v1 (definition : DefinitionV1) : Definition :=
  ⟨definition.name, definition.product_name, definition.product_version,
    definition.available_service_names⟩

/-! ## JSON values and the configuration loader (configuration.py)

`json.load` yields a Python value; it is modelled by `Json`.  Numbers are
restricted to integers (no claim involves a non-integral number).  Objects
are ordered association lists with unique keys, matching Python dicts. -/

inductive Json where
  | null
  | bool (b : Bool)
  | num (n : Int)
  | str (s : String)
  | arr (elems : List Json)
  | obj (fields : List (String × Json))

/-- Python subscription `value[key]` with a string key: a dict yields the
entry or raises `KeyError(key)`; every other value raises `TypeError`. -/
inductive SubscriptError where
  | keyError (key : String)
  | typeError
deriving DecidableEq, Repr

/-- Dictionary lookup for `Json.obj`; keys are unique so first match wins. -/
def jsonLookup (fields : List (String × Json)) (key : String) : Option Json :=
  match fields with
  | [] => none
  | (k, v) :: rest => if k = key then some v else jsonLookup rest key

/-- Python `value[key]` on a decoded JSON value. -/
def Json.index (j : Json) (key : String) : Except SubscriptError Json :=
  match j with
  | .obj fields =>
    match jsonLookup fields key with
    | some v => .ok v
    | none => .error (.keyError key)
  | _ => .error .typeError

/-- Python `==` between a decoded JSON value and the int literal `1`
(`bool` is an `int` subclass in Python, so `True == 1`). -/
def pyEqOne (j : Json) : Bool :=
  match j with
  | .num n => n = 1
  | .bool b => b
  | _ => false

/-- Python truthiness of a decoded JSON value (`if tls:`). -/
def jsonTruthy (j : Json) : Bool :=
  match j with
  | .null => false
  | .bool b => b
  | .num n => n ≠ 0
  | .str s => s ≠ ""
  | .arr elems => !elems.isEmpty
  | .obj fields => !fields.isEmpty

/-- `str(value)` for a decoded JSON value, used by the f-string in the
unsupported-version message.  The composite cases are never exercised by a
theorem in this file; scalars follow Python `str`. -/
def pyStr : Json → String
  | .null => "None"
  | .bool true => "True"
  | .bool false => "False"
  | .num n => toString n
  | .str s => s
  | .arr _ => "<list>"
  | .obj _ => "<dict>"

/-- Python `s.replace(pattern, replacement)` on char lists: leftmost,
non-overlapping, replacing every occurrence.  `fuel` is the length of the
scanned text (each step consumes at least one char of it). -/
def pyReplaceAux (pattern replacement : List Char) : Nat → List Char → List Char
  | 0, s => s
  | _ + 1, [] => []
  | fuel + 1, c :: rest =>
    if pattern.isPrefixOf (c :: rest) && !pattern.isEmpty then
      replacement ++ pyReplaceAux pattern replacement fuel ((c :: rest).drop pattern.length)
    else
      c :: pyReplaceAux pattern replacement fuel rest

/-- Python `s.replace(pattern, replacement)` (all occurrences). -/
def pyReplace (s pattern replacement : String) : String :=
  ⟨pyReplaceAux pattern.data replacement.data s.data.length s.data⟩

/-- String prefix test on the underlying character lists (the semantics of
`str.startswith` / an anchored `re.match` with a literal pattern). -/
def strStartsWith (s pattern : String) : Bool :=
  pattern.data.isPrefixOf s.data

/-- ASCII lowercasing of a string, character by character (`str.lower`). -/
def strToLower (s : String) : String :=
  ⟨s.data.map Char.toLower⟩

/-- `re.match("authorization", key, flags=re.IGNORECASE)`: a case-insensitive
match anchored at the start of `key`, i.e. a case-insensitive prefix test. -/
def ciStartsWithAuth (key : String) : Bool :=
  strStartsWith (strToLower key) "authorization"

/-- The `next(filter(lambda p: re.match("authorization", p[0], re.IGNORECASE)
and re.match("Bearer ", p[1]), headers), None)` scan: the first header whose
key starts (case-insensitively) with `authorization` and whose value starts
with `Bearer `.  `and` short-circuits, so a value is only inspected when the
key matched; a non-string value inspected by `re.match` raises `TypeError`. -/
def findBearer : List (String × Json) → Except String (Option (String × String))
  | [] => .ok none
  | (k, v) :: rest =>
    if ciStartsWithAuth k then
      match v with
      | .str s => if strStartsWith s "Bearer " then .ok (some (k, s)) else findBearer rest
      | _ => .error "TypeError"
    else findBearer rest

/-- Equality test between a header entry `(key, decoded-value)` and the
Python tuple `(key, value-string)` found by the scan (`str == non-str` is
`False` in Python). -/
def pairEqStr (p : String × Json) (q : String × String) : Bool :=
  p.1 = q.1 &&
    match p.2 with
    | .str s => s = q.2
    | _ => false

/-- `headers.remove(header_authorization)`: removes the first element equal
to the found header.  The found header is always a member of the list, so
the not-found `ValueError` branch of `list.remove` is unreachable; the
equation for `[]` is dead code. -/
def removeHeader (q : String × String) : List (String × Json) → List (String × Json)
  | [] => []
  | p :: rest => if pairEqStr p q then rest else p :: removeHeader q rest

/-- The exceptions `Configuration.from_file` can surface: the
`InvalidConfigurationError(configuration_path, message)` of exceptions.py,
or an uncaught Python error (`TypeError`/`AttributeError`) from subscripting
or `.items()` on a value of the wrong shape. -/
inductive LoadError where
  | invalidConfiguration (configuration_path : String) (message : String)
  | pyError (message : String)
deriving DecidableEq, Repr

/-- `str(exc)` for `InvalidConfigurationError`:
`f"{configuration_path} is invalid: {message}"`. -/
def LoadError.message : LoadError → String
  | .invalidConfiguration p m => p ++ " is invalid: " ++ m
  | .pyError m => m

/-- The `Configuration` object (configuration.py): `_headers` keeps the
decoded header values, `_tls` and `_uri` keep the raw decoded entries, and
`_access_token` is a string only on the secure path. -/
structure Configuration where
  headers : List (String × Json)
  tls : Json
  uri : Json
  access_token : Option String

/-- `Configuration.from_file`.  `parsed` is the outcome of `json.load`
(`none` models `JSONDecodeError`).  The body follows the source line by
line: the version gate, the `KeyError`-translating lookups of `pim`, `tls`,
`uri` and `headers`, then on a truthy `tls` the bearer-header scan, token
extraction via `value.replace("Bearer ", "")` and removal of the selected
header. -/
def Configuration.from_file (config_path : String) (parsed : Option Json) :
    Except LoadError Configuration :=
  match parsed with
  | none => .error (.invalidConfiguration config_path "Invalid json.")
  | some configuration =>
    match configuration.index "version" with
    | .error (.keyError key) =>
      .error (.invalidConfiguration config_path
        ("The configuration is missing the entry " ++ key ++ "."))
    | .error .typeError => .error (.pyError "TypeError")
    | .ok version =>
      if pyEqOne version then
        match configuration.index "pim" with
        | .error (.keyError key) =>
          .error (.invalidConfiguration config_path
            ("The configuration is missing the entry " ++ key ++ "."))
        | .error .typeError => .error (.pyError "TypeError")
        | .ok pim_configuration =>
          match pim_configuration.index "tls" with
          | .error (.keyError key) =>
            .error (.invalidConfiguration config_path
              ("The configuration is missing the entry " ++ key ++ "."))
          | .error .typeError => .error (.pyError "TypeError")
          | .ok tls =>
            match pim_configuration.index "uri" with
            | .error (.keyError key) =>
              .error (.invalidConfiguration config_path
                ("The configuration is missing the entry " ++ key ++ "."))
            | .error .typeError => .error (.pyError "TypeError")
            | .ok uri =>
              match pim_configuration.index "headers" with
              | .error (.keyError key) =>
                .error (.invalidConfiguration config_path
                  ("The configuration is missing the entry " ++ key ++ "."))
              | .error .typeError => .error (.pyError "TypeError")
              | .ok headersJson =>
                match headersJson with
                | .obj headers =>
                  if jsonTruthy tls then
                    match findBearer headers with
                    | .error m => .error (.pyError m)
                    | .ok none =>
                      .error (.invalidConfiguration config_path
                        ("An authorization header with a bearer token is required" ++
                          " for a secure connection."))
                    | .ok (some header_authorization) =>
                      .ok ⟨removeHeader header_authorization headers, tls, uri,
                        some (pyReplace header_authorization.2 "Bearer " "")⟩
                  else
                    .ok ⟨headers, tls, uri, none⟩
                | _ => .error (.pyError "AttributeError")
      else
        .error (.invalidConfiguration config_path
          ("Unsupported version \"" ++ pyStr version ++
            "\".Consider upgrading ansys-platform-instancemanagement."))

/-! ## The remote stub

`ProductInstanceManagerStub` is modelled as a record of response functions:
each call either returns the wire response or raises a `grpc.RpcError`.
`GetInstance`/`CreateInstance` responses are keyed by the name carried in
the request, exactly the data the source puts in the request message. -/

structure Stub where
  listDefinitions : Option String → Option String → Except RpcError (List DefinitionV1)
  getInstance : String → Except RpcError InstanceV1
  createInstance : String → Except RpcError InstanceV1

/-! ## Client operations (client.py) -/

/-- `Client.list_definitions`: sends `ListDefinitionsRequest` with the two
optional filters; wraps any `grpc.RpcError` in `RemoteError(exc, exc.details())`;
translates every returned wire definition. -/
def Client.list_definitions (stub : Stub)
    (product_name product_version : Option String) : Except Err (List Definition) :=
  match stub.listDefinitions product_name product_version with
  | .error exc => .error (.pim (.remoteError exc exc.details))
  | .ok defs => .ok (defs.map Definition.from_pim_v1)

/-- `Instance._create` (instance.py): sends
`CreateInstanceRequest(instance=InstanceV1(definition_name=definition_name))`
with no `try`/`except` (a transport error propagates raw) and translates the
response.  Its signature is `(definition_name, stub, timeout=None)` — it has
no `configuration` parameter. -/
def Instance.create (definition_name : String) (stub : Stub) : Except Err Instance :=
  match stub.createInstance definition_name with
  | .error exc => .error (.rpcError exc)
  | .ok wire => .ok (Instance.from_pim_v1 wire)

/-- `Definition.create_instance` (definition.py):
`return Instance._create(definition_name=self.name, stub=self._stub,
timeout=timeout, configuration=configuration)`.  `Instance._create` in this
tree has no `configuration` parameter, so the Python call raises `TypeError`
for the unexpected keyword argument before any request is sent. -/
def Definition.create_instance (_definition : Definition) (_stub : Stub)
    (_configuration : Option Configuration) : Except Err Instance :=
  .error (.typeError "_create() got an unexpected keyword argument configuration")

/-- `Client.create_instance`: lists the definitions matching the filters,
raises `UnsupportedProductError(product_name, product_version)` when the list
is empty, and otherwise returns
`definitions[0].create_instance(timeout=requests_timeout, configuration=self._configuration)`. -/
def Client.create_instance (stub : Stub) (configuration : Option Configuration)
    (product_name : String) (product_version : Option String) : Except Err Instance :=
  match Client.list_definitions stub (some product_name) product_version with
  | .error e => .error e
  | .ok definitions =>
    match definitions with
    | [] => .error (.pim (.unsupportedProduct product_name product_version))
    | definition :: _ => Definition.create_instance definition stub configuration

/-- `Client.get_instance`: sends `GetInstanceRequest(name=name)`; a
`NOT_FOUND` transport status becomes
`InstanceNotFoundError(exc, f"The instance {name} does not exist.")`, any
other transport error becomes `RemoteError(exc, exc.details())`.  On success
the source returns `Instance._from_pim_v1(instance, self._stub, self._configuration)` —
three positional arguments to a staticmethod declared as
`_from_pim_v1(instance, stub=None)`, which raises `TypeError` in Python,
so the translated instance is never returned. -/
def Client.get_instance (stub : Stub) (name : String) : Except Err Instance :=
  match stub.getInstance name with
  | .error exc =>
    if exc.code = .notFound then
      .error (.pim (.instanceNotFound exc ("The instance " ++ name ++ " does not exist.")))
    else
      .error (.pim (.remoteError exc exc.details))
  | .ok _ =>
    .error (.typeError "_from_pim_v1() takes from 1 to 2 positional arguments but 3 were given")

/-! ## Instance lifecycle (instance.py) -/

/-- Outcome of `Instance.update` on one scripted `GetInstance` response:
`error = some e` models a raised exception, and `inst` is the state of the
mutated-in-place object after the call (unchanged when an exception was
raised, because every field assignment in the source sits after the
`try`/`except` block). -/
structure UpdateOutcome where
  error : Option PimError
  inst : Instance
deriving DecidableEq, Repr

/-- `Instance.update`: issues `GetInstanceRequest(name=self.name)` (the
scripted outcome of that call is `resp`); translates `NOT_FOUND` to
`InstanceNotFoundError(exc, f"The instance {self.name} was deleted.")` and
any other transport error to `RemoteError(exc, exc.details())`, in both cases
leaving every field untouched; on success overwrites `_name`,
`_definition_name`, `_status_message`, `_services` (re-translated) and
`_ready` with the values of the response. -/
def Instance.update (inst : Instance) (resp : Except RpcError InstanceV1) : UpdateOutcome :=
  match resp with
  | .error exc =>
    if exc.code = .notFound then
      ⟨some (.instanceNotFound exc ("The instance " ++ inst.name ++ " was deleted.")), inst⟩
    else
      ⟨some (.remoteError exc exc.details), inst⟩
  | .ok wire =>
    ⟨none,
      { inst with
        name := wire.name
        definition_name := wire.definition_name
        status_message := wire.status_message
        services := servicesFromPim wire.services
        ready := wire.ready }⟩

/-- Observable events of `Instance.wait_for_ready`: one `GetInstance` round
trip (`updateCall`) or one `time.sleep(polling_interval)` (`sleep`). -/
inductive PollEvent where
  | updateCall
  | sleep (interval : ℚ)
deriving DecidableEq, Repr

/-- The `while not self.ready: time.sleep(polling_interval); self.update(...)`
loop of `wait_for_ready`.  `script` holds the scripted responses of the
successive `GetInstance` calls; the source loop is unbounded, so `none`
models a run whose script is exhausted while the loop is still polling. -/
def waitLoop (inst : Instance) (script : List (Except RpcError InstanceV1))
    (interval : ℚ) : Option (Except PimError Instance × List PollEvent) :=
  if inst.ready then some (.ok inst, [])
  else
    match script with
    | [] => none
    | resp :: rest =>
      match Instance.update inst resp with
      | ⟨some e, _⟩ => some (.error e, [.sleep interval, .updateCall])
      | ⟨none, inst2⟩ =>
        (waitLoop inst2 rest interval).map
          (fun p => (p.1, .sleep interval :: .updateCall :: p.2))

/-- `Instance.wait_for_ready`: one immediate `update` (no initial sleep),
then the polling loop.  Returns the final state (or the propagated
exception) together with the ordered trace of update calls and sleeps. -/
def Instance.wait_for_ready (inst : Instance)
    (script : List (Except RpcError InstanceV1)) (interval : ℚ) :
    Option (Except PimError Instance × List PollEvent) :=
  match script with
  | [] => none
  | resp :: rest =>
    match Instance.update inst resp with
    | ⟨some e, _⟩ => some (.error e, [.updateCall])
    | ⟨none, inst2⟩ =>
      (waitLoop inst2 rest interval).map
        (fun p => (p.1, .updateCall :: p.2))

/-- First-match lookup in the services mapping: `self.services.get(service_name, None)`
(dict keys are unique, so first match is the match). -/
def lookupService (services : List (String × Service)) (service_name : String) :
    Option Service :=
  match services with
  | [] => none
  | (n, s) :: rest => if n = service_name then some s else lookupService rest service_name

/-- `Instance.build_grpc_channel`: raises `InstanceNotReadyError(self.name)`
when not ready; raises `UnsupportedServiceError(self.name, service_name)`
when the service is absent (a `Service` object is always truthy, so
`if not service:` tests exactly for `None`); otherwise returns
`service._build_grpc_channel(**kwargs)` — modelled by the abstract channel
constructor `build`, applied once to the looked-up service. -/
def Instance.build_grpc_channel {α : Type} (inst : Instance) (build : Service → α)
    (service_name : String) : Except Err α :=
  if !inst.ready then
    .error (.pim (.instanceNotReady inst.name))
  else
    match lookupService inst.services service_name with
    | none => .error (.pim (.unsupportedService inst.name service_name))
    | some service => .ok (build service)

/-! ## Header-adding interceptor (interceptor.py)

Metadata is a list of `(key, value)` pairs; request iterators are lists; the
`continuation` is the abstract next stage of the channel.  `next(iterator)`
on an empty iterator would raise `StopIteration`, modelled by `none` in the
unary-request shapes (unreachable for the tuple iterator the source builds). -/

/-- The `_ClientCallDetails` namedtuple fields.  `metadata` is `None` when
the caller set no per-call metadata. -/
structure ClientCallDetails where
  method : String
  timeout : Option ℚ
  metadata : Option (List (String × String))
  credentials : Option String
deriving DecidableEq, Repr

/-- The result of the interceptor function `_fn`: new call details, the
(possibly replaced) request iterator, and an optional response postprocessor. -/
def InterceptResult (ρ σ : Type) : Type :=
  ClientCallDetails × List ρ × Option (σ → σ)

/-- The `intercept_call` closure built by `header_adder_interceptor(headers)`:
starts from the caller's metadata (empty when `None`), appends every
configured pair in order, rebuilds the call details with the other three
fields untouched, and returns the request iterator unchanged with no
postprocessor.  The two call-shape booleans are ignored (`*_`). -/
def header_adder_intercept_call {ρ σ : Type} (headers : List (String × String))
    (client_call_details : ClientCallDetails) (request_iterator : List ρ)
    (_request_streaming _response_streaming : Bool) : InterceptResult ρ σ :=
  let metadata :=
    match client_call_details.metadata with
    | none => []
    | some m => m
  let metadata := metadata ++ headers
  (⟨client_call_details.method, client_call_details.timeout, some metadata,
      client_call_details.credentials⟩,
    request_iterator, none)

/-- `_GenericClientInterceptor.intercept_unary_unary`: wraps the single
request in a one-element iterator, runs `fn`, takes `next(...)` of the new
iterator, invokes the continuation, and applies the postprocessor when one
was returned. -/
def intercept_unary_unary {ρ σ : Type}
    (fn : ClientCallDetails → List ρ → Bool → Bool → InterceptResult ρ σ)
    (continuation : ClientCallDetails → ρ → σ)
    (client_call_details : ClientCallDetails) (request : ρ) : Option σ :=
  match fn client_call_details [request] false false with
  | (new_details, new_request_iterator, postprocess) =>
    match new_request_iterator with
    | [] => none
    | r :: _ =>
      let response := continuation new_details r
      some (match postprocess with
        | some f => f response
        | none => response)

/-- `_GenericClientInterceptor.intercept_unary_stream` (the response value
`σ` stands for the whole response iterator). -/
def intercept_unary_stream {ρ σ : Type}
    (fn : ClientCallDetails → List ρ → Bool → Bool → InterceptResult ρ σ)
    (continuation : ClientCallDetails → ρ → σ)
    (client_call_details : ClientCallDetails) (request : ρ) : Option σ :=
  match fn client_call_details [request] false true with
  | (new_details, new_request_iterator, postprocess) =>
    match new_request_iterator with
    | [] => none
    | r :: _ =>
      let response_it := continuation new_details r
      some (match postprocess with
        | some f => f response_it
        | none => response_it)

/-- `_GenericClientInterceptor.intercept_stream_unary`: the request iterator
is handed to the continuation whole. -/
def intercept_stream_unary {ρ σ : Type}
    (fn : ClientCallDetails → List ρ → Bool → Bool → InterceptResult ρ σ)
    (continuation : ClientCallDetails → List ρ → σ)
    (client_call_details : ClientCallDetails) (request_iterator : List ρ) : σ :=
  match fn client_call_details request_iterator true false with
  | (new_details, new_request_iterator, postprocess) =>
    let response := continuation new_details new_request_iterator
    match postprocess with
    | some f => f response
    | none => response

/-- `_GenericClientInterceptor.intercept_stream_stream`. -/
def intercept_stream_stream {ρ σ : Type}
    (fn : ClientCallDetails → List ρ → Bool → Bool → InterceptResult ρ σ)
    (continuation : ClientCallDetails → List ρ → σ)
    (client_call_details : ClientCallDetails) (request_iterator : List ρ) : σ :=
  match fn client_call_details request_iterator true true with
  | (new_details, new_request_iterator, postprocess) =>
    let response_it := continuation new_details new_request_iterator
    match postprocess with
    | some f => f response_it
    | none => response_it

/-! ## Concrete sample values

Wire records, stubs and configuration documents used to evaluate the
operations at specific inputs. -/

/-- A header entry that is skipped by the bearer scan: the key does not
start with `authorization` (case-insensitively), or the value is a string
that does not start with `Bearer `. -/
def skipsBearer (p : String × Json) : Prop :=
  ciStartsWithAuth p.1 = false ∨
    ∃ w, p.2 = Json.str w ∧ strStartsWith w "Bearer " = false

def defV1sample : DefinitionV1 :=
  ⟨"definitions/def-1", "mapdl", "221", ["grpc"]⟩

def defV1bad : DefinitionV1 :=
  ⟨"bad-name", "", "", []⟩

def svcV1sample : ServiceV1 :=
  ⟨"dns:10.240.4.231:50052", [("token", "hello-world")]⟩

def instV1sample : InstanceV1 :=
  ⟨"instances/i-1", "definitions/def-1", true, "", [("grpc", svcV1sample)]⟩

def stubEmptyDefs : Stub :=
  ⟨fun _ _ => .ok [], fun _ => .error ⟨.notFound, ""⟩, fun _ => .error ⟨.internal, ""⟩⟩

def stubOneDef : Stub :=
  ⟨fun _ _ => .ok [defV1sample], fun _ => .error ⟨.notFound, ""⟩,
    fun _ => .error ⟨.internal, ""⟩⟩

def stubGetNotFound : Stub :=
  ⟨fun _ _ => .ok [], fun _ => .error ⟨.notFound, "nope"⟩, fun _ => .error ⟨.internal, ""⟩⟩

def stubGetInternal : Stub :=
  ⟨fun _ _ => .ok [], fun _ => .error ⟨.internal, "X"⟩, fun _ => .error ⟨.internal, ""⟩⟩

def stubGetOk : Stub :=
  ⟨fun _ _ => .ok [], fun _ => .ok instV1sample, fun _ => .error ⟨.internal, ""⟩⟩

def instNotReadyS : Instance :=
  ⟨"definitions/def-1", "instances/i-not-ready", false, "loading...", []⟩

def instReadyS : Instance :=
  ⟨"definitions/def-1", "instances/i-ready", true, "",
    [("grpc", ⟨"dns:10.240.4.231:50052", []⟩)]⟩

def respNotReady1 : InstanceV1 :=
  ⟨"instances/i-1", "definitions/def-1", false, "loading", []⟩

def respNotReady2 : InstanceV1 :=
  ⟨"instances/i-1", "definitions/def-1", false, "loading", []⟩

def respNotReady3 : InstanceV1 :=
  ⟨"instances/i-1", "definitions/def-1", false, "almost there", []⟩

def respReady4 : InstanceV1 :=
  ⟨"instances/i-1", "definitions/def-1", true, "", [("grpc", svcV1sample)]⟩

def cfgTlsFalse : Json :=
  .obj [("version", .num 1),
    ("pim", .obj [("uri", .str "dns:host:80"),
      ("headers", .obj [("k", .str "v")]),
      ("tls", .bool false)])]

def cfgTlsTrue : Json :=
  .obj [("version", .num 1),
    ("pim", .obj [("uri", .str "dns:host:80"),
      ("headers", .obj [("extra", .str "1"), ("Authorization", .str "Bearer 007")]),
      ("tls", .bool true)])]

def cfgBearerBearer : Json :=
  .obj [("version", .num 1),
    ("pim", .obj [("uri", .str "dns:host:80"),
      ("headers", .obj [("authorization", .str "Bearer Bearer q")]),
      ("tls", .bool true)])]

def cfgVersionTrue : Json :=
  .obj [("version", .bool true),
    ("pim", .obj [("uri", .str "dns:host:80"),
      ("headers", .obj [("k", .str "v")]),
      ("tls", .bool false)])]

def cfgVersionTwo : Json :=
  .obj [("version", .num 2), ("pim", .str "future format")]

def cfgMissingTls : Json :=
  .obj [("version", .num 1),
    ("pim", .obj [("uri", .str "dns:host:80"), ("headers", .obj [])])]

def cfgMissingUri : Json :=
  .obj [("version", .num 1),
    ("pim", .obj [("headers", .obj []), ("tls", .bool false)])]

def cfgMissingHeaders : Json :=
  .obj [("version", .num 1),
    ("pim", .obj [("uri", .str "dns:host:80"), ("tls", .bool false)])]

def cfgNoBearer : Json :=
  .obj [("version", .num 1),
    ("pim", .obj [("uri", .str "dns:host:80"),
      ("headers", .obj [("token", .str "007"), ("identity", .str "james bond")]),
      ("tls", .bool true)])]

/-! ## Helper lemmas -/

theorem message_token (p m q r tok : String) (h : m = q ++ (tok ++ r)) :
    ∃ u w, (LoadError.invalidConfiguration p m).message = u ++ (tok ++ w) := by
  refine ⟨p ++ (" is invalid: " ++ q), r, ?_⟩
  apply String.ext
  simp [LoadError.message, h, String.data_append, List.append_assoc]

theorem findBearer_append (pre rest : List (String × Json))
    (h : ∀ p ∈ pre, skipsBearer p) :
    findBearer (pre ++ rest) = findBearer rest := by
  induction pre with
  | nil => rfl
  | cons p pre ih =>
    obtain ⟨k, v⟩ := p
    have hp := h (k, v) (List.mem_cons_self _ _)
    have htail : ∀ q ∈ pre, skipsBearer q := fun q hq => h q (List.mem_cons_of_mem _ hq)
    show findBearer ((k, v) :: (pre ++ rest)) = findBearer rest
    rcases hp with h1 | ⟨w, hw, hw2⟩
    · simp only at h1
      cases v <;> rw [findBearer, if_neg (by simp [h1])] <;>
        first
        | exact ih htail
        | (intro s hs; cases hs)
    · simp only at hw
      subst hw
      by_cases hk : ciStartsWithAuth k = true
      · rw [findBearer, if_pos hk]
        simp only [hw2, Bool.false_eq_true, if_false]
        exact ih htail
      · rw [findBearer, if_neg hk]
        exact ih htail

theorem removeHeader_append (k v : String) (pre post : List (String × Json))
    (hk : ciStartsWithAuth k = true) (hb : strStartsWith v "Bearer " = true)
    (h : ∀ p ∈ pre, skipsBearer p) :
    removeHeader (k, v) (pre ++ (k, Json.str v) :: post) = pre ++ post := by
  induction pre with
  | nil => simp [removeHeader, pairEqStr]
  | cons p pre ih =>
    obtain ⟨k1, v1⟩ := p
    have hp := h (k1, v1) (List.mem_cons_self _ _)
    have htail : ∀ q ∈ pre, skipsBearer q := fun q hq => h q (List.mem_cons_of_mem _ hq)
    have hne : pairEqStr (k1, v1) (k, v) = false := by
      rcases hp with h1 | ⟨w, hw, hw2⟩
      · simp only at h1
        have hkk : k1 ≠ k := by
          intro he
          rw [he, hk] at h1
          cases h1
        simp [pairEqStr, hkk]
      · simp only at hw
        subst hw
        by_cases hkk : k1 = k
        · have hvv : w ≠ v := by
            intro he
            rw [he, hb] at hw2
            cases hw2
          simp [pairEqStr, hvv]
        · simp [pairEqStr, hkk]
    show removeHeader (k, v) ((k1, v1) :: (pre ++ (k, Json.str v) :: post)) =
      (k1, v1) :: (pre ++ post)
    rw [removeHeader, if_neg (by simp [hne])]
    rw [ih htail]

theorem waitLoop_trace (q : ℚ) (script : List (Except RpcError InstanceV1)) :
    ∀ (inst : Instance) (res : Except PimError Instance) (evs : List PollEvent),
      waitLoop inst script q = some (res, evs) →
      ∃ n, evs = (List.replicate n [PollEvent.sleep q, PollEvent.updateCall]).flatten := by
  induction script with
  | nil =>
    intro inst res evs h
    rw [waitLoop] at h
    split at h
    · exact ⟨0, by simp_all⟩
    · cases h
  | cons r rest ih =>
    intro inst res evs h
    rw [waitLoop] at h
    split at h
    · exact ⟨0, by simp_all⟩
    · rcases hu : Instance.update inst r with ⟨err, inst2⟩
      rw [hu] at h
      rcases err with _ | e
      · rcases hw : waitLoop inst2 rest q with _ | ⟨res1, evs1⟩
        · simp only [hw, Option.map_none'] at h
          cases h
        · simp only [hw, Option.map_some', Option.some.injEq, Prod.mk.injEq] at h
          obtain ⟨n, hn⟩ := ih inst2 res1 evs1 hw
          refine ⟨n + 1, ?_⟩
          simp [← h.2, hn, List.replicate_succ]
      · simp only [Option.some.injEq, Prod.mk.injEq] at h
        exact ⟨1, by simp [← h.2]⟩

/-! ## Claims -/

/-- C1: `Client.create_instance` with an empty definitions list raises
`UnsupportedProductError` carrying exactly the requested `product_name` and
`product_version`; with a non-empty list it delegates to the first
definition only, forwarding the active configuration, and returns exactly
the result of that delegation. -/
theorem client_create_instance_delegation (stub : Stub)
    (configuration : Option Configuration)
    (product_name : String) (product_version : Option String) :
    (stub.listDefinitions (some product_name) product_version = .ok [] →
      Client.create_instance stub configuration product_name product_version =
        .error (.pim (.unsupportedProduct product_name product_version))) ∧
    (∀ d rest, stub.listDefinitions (some product_name) product_version = .ok (d :: rest) →
      Client.create_instance stub configuration product_name product_version =
        Definition.create_instance (Definition.from_pim_v1 d) stub configuration) := by
  constructor
  · intro h
    simp [Client.create_instance, Client.list_definitions, h]
  · intro d rest h
    simp [Client.create_instance, Client.list_definitions, h]

/-- Witness for C1 at concrete stubs. -/
theorem client_create_instance_delegation_witness :
    (Client.create_instance stubEmptyDefs none "mapdl" (some "221") =
      .error (.pim (.unsupportedProduct "mapdl" (some "221")))) ∧
    (Client.create_instance stubOneDef none "mapdl" (some "221") =
      Definition.create_instance (Definition.from_pim_v1 defV1sample) stubOneDef none) :=
  ⟨(client_create_instance_delegation stubEmptyDefs none "mapdl" (some "221")).1 rfl,
    (client_create_instance_delegation stubOneDef none "mapdl" (some "221")).2
      defV1sample [] rfl⟩

/-- C2: `Instance.wait_for_ready` issues the first update immediately with
no initial sleep and sleeps exactly once, for `polling_interval`, between
consecutive updates (the trace of any terminating run is an update followed
by repeated sleep-update pairs); for a script whose responses are not ready
three times (the third with a different status message) and ready with
populated services on the fourth, it calls update exactly four times,
sleeping between each pair, and ends ready with the services of the fourth
response. -/
theorem wait_for_ready_polling (q : ℚ) :
    (∀ (inst : Instance) (script : List (Except RpcError InstanceV1))
        (res : Except PimError Instance) (evs : List PollEvent),
      Instance.wait_for_ready inst script q = some (res, evs) →
      ∃ n, evs = PollEvent.updateCall ::
        (List.replicate n [PollEvent.sleep q, PollEvent.updateCall]).flatten) ∧
    (∀ (inst : Instance) (r1 r2 r3 r4 : InstanceV1),
      r1.ready = false → r2.ready = false → r3.ready = false →
      r3.status_message ≠ r2.status_message → r4.ready = true →
      Instance.wait_for_ready inst [.ok r1, .ok r2, .ok r3, .ok r4] q =
        some (.ok ⟨r4.definition_name, r4.name, r4.ready, r4.status_message,
            servicesFromPim r4.services⟩,
          [.updateCall, .sleep q, .updateCall, .sleep q, .updateCall, .sleep q,
            .updateCall])) := by
  constructor
  · intro inst script res evs h
    cases script with
    | nil => cases h
    | cons r rest =>
      rw [Instance.wait_for_ready] at h
      rcases hu : Instance.update inst r with ⟨err, inst2⟩
      rw [hu] at h
      rcases err with _ | e
      · rcases hw : waitLoop inst2 rest q with _ | ⟨res1, evs1⟩
        · simp only [hw, Option.map_none'] at h
          cases h
        · simp only [hw, Option.map_some', Option.some.injEq, Prod.mk.injEq] at h
          obtain ⟨n, hn⟩ := waitLoop_trace q rest inst2 res1 evs1 hw
          exact ⟨n, by simp [← h.2, hn]⟩
      · simp only [Option.some.injEq, Prod.mk.injEq] at h
        exact ⟨0, by simp [← h.2]⟩
  · intro inst r1 r2 r3 r4 h1 h2 h3 _hm h4
    simp [Instance.wait_for_ready, waitLoop, Instance.update, h1, h2, h3, h4]

/-- Witness for C2 at a concrete script of four responses. -/
theorem wait_for_ready_polling_witness :
    (∃ n, ([PollEvent.updateCall, PollEvent.sleep ((1 : ℚ)/2), PollEvent.updateCall,
        PollEvent.sleep ((1 : ℚ)/2), PollEvent.updateCall, PollEvent.sleep ((1 : ℚ)/2),
        PollEvent.updateCall]) = PollEvent.updateCall ::
        (List.replicate n [PollEvent.sleep ((1 : ℚ)/2), PollEvent.updateCall]).flatten) ∧
    (Instance.wait_for_ready instNotReadyS
        [.ok respNotReady1, .ok respNotReady2, .ok respNotReady3, .ok respReady4]
        ((1 : ℚ)/2) =
      some (.ok ⟨"definitions/def-1", "instances/i-1", true, "",
          [("grpc", ⟨"dns:10.240.4.231:50052", [("token", "hello-world")]⟩)]⟩,
        [PollEvent.updateCall, PollEvent.sleep ((1 : ℚ)/2), PollEvent.updateCall,
          PollEvent.sleep ((1 : ℚ)/2), PollEvent.updateCall, PollEvent.sleep ((1 : ℚ)/2),
          PollEvent.updateCall])) := by
  constructor
  · exact (wait_for_ready_polling ((1 : ℚ)/2)).1 instNotReadyS
      [.ok respNotReady1, .ok respNotReady2, .ok respNotReady3, .ok respReady4]
      (.ok ⟨"definitions/def-1", "instances/i-1", true, "",
        [("grpc", ⟨"dns:10.240.4.231:50052", [("token", "hello-world")]⟩)]⟩)
      ([PollEvent.updateCall, PollEvent.sleep ((1 : ℚ)/2), PollEvent.updateCall,
        PollEvent.sleep ((1 : ℚ)/2), PollEvent.updateCall, PollEvent.sleep ((1 : ℚ)/2),
        PollEvent.updateCall]) rfl
  · exact (wait_for_ready_polling ((1 : ℚ)/2)).2 instNotReadyS
      respNotReady1 respNotReady2 respNotReady3 respReady4 rfl rfl rfl (by decide) rfl

/-- C3: `Instance.update` on a successful response overwrites `name`,
`definition_name`, `status_message`, `services` and `ready` of the same
handle (modelled as the returned state of the threaded object); on any
transport failure it raises and the state is exactly the state from before
the call. -/
theorem instance_update_mutation (inst : Instance) :
    (∀ wire : InstanceV1,
      Instance.update inst (.ok wire) =
        ⟨none,
          { definition_name := wire.definition_name, name := wire.name, ready := wire.ready,
            status_message := wire.status_message,
            services := servicesFromPim wire.services }⟩) ∧
    (∀ exc : RpcError, ∃ e : PimError,
      Instance.update inst (.error exc) = ⟨some e, inst⟩) := by
  constructor
  · intro wire
    rfl
  · intro exc
    by_cases h : exc.code = .notFound
    · exact ⟨.instanceNotFound exc ("The instance " ++ inst.name ++ " was deleted."),
        by simp [Instance.update, h]⟩
    · exact ⟨.remoteError exc exc.details, by simp [Instance.update, h]⟩

/-- C4 (code-bug evidence): `Client.get_instance` translates a `NOT_FOUND`
transport failure to `InstanceNotFoundError` whose message contains the
requested name, and any other failure to `RemoteError` carrying the
transport details as its message and the original call (with its status
code) as its cause; `Instance.update` behaves the same on its errors and
applies a successful response to the handle.  On a successful
`GetInstance` response, however, `Client.get_instance` raises `TypeError`
instead of returning the translated instance, because the source passes
three positional arguments to the two-parameter `Instance._from_pim_v1`. -/
theorem get_instance_and_update_error_translation :
    (Client.get_instance stubGetNotFound "instances/i-1" =
      .error (.pim (.instanceNotFound ⟨.notFound, "nope"⟩
        "The instance instances/i-1 does not exist."))) ∧
    (Client.get_instance stubGetInternal "instances/i-1" =
      .error (.pim (.remoteError ⟨.internal, "X"⟩ "X"))) ∧
    ((⟨.internal, "X"⟩ : RpcError).code = .internal) ∧
    (Client.get_instance stubGetOk "instances/i-1" =
      .error (.typeError
        "_from_pim_v1() takes from 1 to 2 positional arguments but 3 were given")) ∧
    (∀ inst : Instance, Instance.update inst (.error ⟨.notFound, "nope"⟩) =
      ⟨some (.instanceNotFound ⟨.notFound, "nope"⟩
        ("The instance " ++ inst.name ++ " was deleted.")), inst⟩) ∧
    (∀ inst : Instance, Instance.update inst (.error ⟨.internal, "X"⟩) =
      ⟨some (.remoteError ⟨.internal, "X"⟩ "X"), inst⟩) ∧
    (∀ inst : Instance, Instance.update inst (.ok instV1sample) =
      ⟨none, Instance.from_pim_v1 instV1sample⟩) := by
  refine ⟨rfl, rfl, rfl, rfl, fun inst => ?_, fun inst => ?_, fun inst => rfl⟩
  · simp [Instance.update]
  · simp [Instance.update]

/-- C5 counterexample: the `Definition` translator accepts a record whose
name lacks the `definitions/` prefix and whose product name, product
version and service list are all empty, returning a domain record instead
of raising a validation error. -/
theorem definition_translator_accepts_invalid_record :
    Definition.from_pim_v1 defV1bad = ⟨"bad-name", "", "", []⟩ ∧
    "bad-name".startsWith "definitions/" = false ∧
    defV1bad.product_name = "" ∧ defV1bad.product_version = "" ∧
    defV1bad.available_service_names = [] :=
  ⟨rfl, by decide, rfl, rfl, rfl⟩

/-- C5 (amended): `Definition._from_pim_v1` performs no validation at all:
for every wire record it succeeds and preserves all four fields. -/
theorem definition_translator_preserves_fields (definition : DefinitionV1) :
    Definition.from_pim_v1 definition =
      ⟨definition.name, definition.product_name, definition.product_version,
        definition.available_service_names⟩ :=
  rfl

/-- C6: `Instance.build_grpc_channel` raises `InstanceNotReadyError` naming
the instance when not ready, raises `UnsupportedServiceError` naming both
the instance and the missing service when the service is absent, and
otherwise applies the channel construction of the looked-up service exactly
once, returning its result unchanged. -/
theorem build_grpc_channel_dispatch {α : Type} (inst : Instance) (build : Service → α)
    (service_name : String) :
    (inst.ready = false →
      inst.build_grpc_channel build service_name =
          .error (.pim (.instanceNotReady inst.name)) ∧
        ∃ post, (PimError.instanceNotReady inst.name).message = inst.name ++ post) ∧
    (inst.ready = true → lookupService inst.services service_name = none →
      inst.build_grpc_channel build service_name =
          .error (.pim (.unsupportedService inst.name service_name)) ∧
        ∃ mid post,
          (PimError.unsupportedService inst.name service_name).message =
            inst.name ++ mid ++ service_name ++ post) ∧
    (∀ service, inst.ready = true →
      lookupService inst.services service_name = some service →
      inst.build_grpc_channel build service_name = .ok (build service)) := by
  refine ⟨fun h => ⟨by simp [Instance.build_grpc_channel, h], ⟨" is not ready", rfl⟩⟩,
    fun h h2 => ⟨by simp [Instance.build_grpc_channel, h, h2],
      ⟨" does not support the service \"", "\"", rfl⟩⟩,
    fun service h h2 => by simp [Instance.build_grpc_channel, h, h2]⟩

/-- Witness for C6 at concrete instances. -/
theorem build_grpc_channel_dispatch_witness :
    (instNotReadyS.build_grpc_channel (fun s => s.uri) "grpc" =
      .error (.pim (.instanceNotReady "instances/i-not-ready"))) ∧
    (instReadyS.build_grpc_channel (fun s => s.uri) "http" =
      .error (.pim (.unsupportedService "instances/i-ready" "http"))) ∧
    (instReadyS.build_grpc_channel (fun s => s.uri) "grpc" =
      .ok "dns:10.240.4.231:50052") :=
  ⟨((build_grpc_channel_dispatch instNotReadyS (fun s => s.uri) "grpc").1 rfl).1,
    (((build_grpc_channel_dispatch instReadyS (fun s => s.uri) "http").2.1 rfl) rfl).1,
    ((build_grpc_channel_dispatch instReadyS (fun s => s.uri) "grpc").2.2
      ⟨"dns:10.240.4.231:50052", []⟩ rfl rfl)⟩

theorem from_file_tls_false_ok (config_path : String) (cfg pim uri : Json)
    (hs0 : List (String × Json))
    (hv : cfg.index "version" = .ok (Json.num 1))
    (hp : cfg.index "pim" = .ok pim)
    (ht : pim.index "tls" = .ok (Json.bool false))
    (hu : pim.index "uri" = .ok uri)
    (hh : pim.index "headers" = .ok (Json.obj hs0)) :
    Configuration.from_file config_path (some cfg) =
      .ok ⟨hs0, Json.bool false, uri, none⟩ := by
  simp [Configuration.from_file, hv, hp, ht, hu, hh, pyEqOne, jsonTruthy]

theorem from_file_tls_true_ok (config_path : String) (cfg pim tls uri : Json)
    (pre post : List (String × Json)) (k v : String)
    (hv : cfg.index "version" = .ok (Json.num 1))
    (hp : cfg.index "pim" = .ok pim)
    (ht : pim.index "tls" = .ok tls)
    (htt : jsonTruthy tls = true)
    (hu : pim.index "uri" = .ok uri)
    (hh : pim.index "headers" = .ok (Json.obj (pre ++ (k, Json.str v) :: post)))
    (hk : ciStartsWithAuth k = true)
    (hb : strStartsWith v "Bearer " = true)
    (hs : ∀ p ∈ pre, skipsBearer p) :
    Configuration.from_file config_path (some cfg) =
      .ok ⟨pre ++ post, tls, uri, some (pyReplace v "Bearer " "")⟩ := by
  have h1 : findBearer (pre ++ (k, Json.str v) :: post) = .ok (some (k, v)) := by
    rw [findBearer_append pre _ hs, findBearer, if_pos hk, if_pos hb]
  have h2 := removeHeader_append k v pre post hk hb hs
  simp [Configuration.from_file, hv, hp, ht, hu, hh, htt, pyEqOne, h1, h2]

theorem from_file_ok_token (config_path : String) (parsed : Option Json)
    (c : Configuration) (h : Configuration.from_file config_path parsed = .ok c)
    (htls : jsonTruthy c.tls = true) : c.access_token ≠ none := by
  cases parsed with
  | none => cases h
  | some cfg =>
    rw [Configuration.from_file] at h
    repeat' split at h
    all_goals cases h
    all_goals simp_all

/-- C7 counterexample: for the configuration with `tls=true` and the single
header `("authorization", "Bearer Bearer q")` — a value of the form
`"Bearer X"` with `X = "Bearer q"` — loading succeeds but `access_token` is
`"q"`, not `X`: `replace` removes every occurrence of `"Bearer "`, not just
the leading prefix. -/
theorem from_file_bearer_token_counterexample :
    ("Bearer Bearer q" : String) = "Bearer " ++ "Bearer q" ∧
    Configuration.from_file "pim.json" (some cfgBearerBearer) =
      .ok ⟨[], Json.bool true, Json.str "dns:host:80", some "q"⟩ ∧
    ("q" : String) ≠ "Bearer q" :=
  ⟨rfl, rfl, by decide⟩

/-- C7 (amended): with `version=1` and all entries present, `tls=false`
loads successfully with no access token; `tls=true` selects the first
header whose key starts case-insensitively with `authorization` and whose
value starts with `Bearer `, succeeds with `access_token` equal to that
value with every occurrence of `"Bearer "` removed (which is `X` for a
`"Bearer X"` value whose `X` contains no further `"Bearer "`), removes that
header, and keeps all other headers in their original order; and every
successfully loaded configuration with a true `tls` has an access token. -/
theorem from_file_loading_spec :
    (∀ (config_path : String) (cfg pim uri : Json) (hs0 : List (String × Json)),
      cfg.index "version" = .ok (Json.num 1) →
      cfg.index "pim" = .ok pim →
      pim.index "tls" = .ok (Json.bool false) →
      pim.index "uri" = .ok uri →
      pim.index "headers" = .ok (Json.obj hs0) →
      Configuration.from_file config_path (some cfg) =
        .ok ⟨hs0, Json.bool false, uri, none⟩) ∧
    (∀ (config_path : String) (cfg pim uri : Json)
        (pre post : List (String × Json)) (k v : String),
      cfg.index "version" = .ok (Json.num 1) →
      cfg.index "pim" = .ok pim →
      pim.index "tls" = .ok (Json.bool true) →
      pim.index "uri" = .ok uri →
      pim.index "headers" = .ok (Json.obj (pre ++ (k, Json.str v) :: post)) →
      ciStartsWithAuth k = true →
      strStartsWith v "Bearer " = true →
      (∀ p ∈ pre, skipsBearer p) →
      Configuration.from_file config_path (some cfg) =
        .ok ⟨pre ++ post, Json.bool true, uri, some (pyReplace v "Bearer " "")⟩) ∧
    (∀ (config_path : String) (parsed : Option Json) (c : Configuration),
      Configuration.from_file config_path parsed = .ok c →
      c.tls = Json.bool true → c.access_token ≠ none) := by
  refine ⟨fun path cfg pim uri hs0 hv hp ht hu hh =>
      from_file_tls_false_ok path cfg pim uri hs0 hv hp ht hu hh,
    fun path cfg pim uri pre post k v hv hp ht hu hh hk hb hs =>
      from_file_tls_true_ok path cfg pim (Json.bool true) uri pre post k v
        hv hp ht rfl hu hh hk hb hs,
    fun path parsed c h htls => from_file_ok_token path parsed c h ?_⟩
  rw [htls]
  rfl

/-- Witness for C7 at concrete configuration documents. -/
theorem from_file_loading_spec_witness :
    (Configuration.from_file "pim.json" (some cfgTlsFalse) =
      .ok ⟨[("k", Json.str "v")], Json.bool false, Json.str "dns:host:80", none⟩) ∧
    (Configuration.from_file "pim.json" (some cfgTlsTrue) =
      .ok ⟨[("extra", Json.str "1")], Json.bool true, Json.str "dns:host:80",
        some (pyReplace "Bearer 007" "Bearer " "")⟩) ∧
    ((⟨[("extra", Json.str "1")], Json.bool true, Json.str "dns:host:80",
        some (pyReplace "Bearer 007" "Bearer " "")⟩ : Configuration).access_token ≠
      none) := by
  refine ⟨from_file_loading_spec.1 "pim.json" cfgTlsFalse
      (Json.obj [("uri", Json.str "dns:host:80"), ("headers", Json.obj [("k", Json.str "v")]),
        ("tls", Json.bool false)])
      (Json.str "dns:host:80") [("k", Json.str "v")] rfl rfl rfl rfl rfl,
    from_file_loading_spec.2.1 "pim.json" cfgTlsTrue
      (Json.obj [("uri", Json.str "dns:host:80"),
        ("headers", Json.obj [("extra", Json.str "1"),
          ("Authorization", Json.str "Bearer 007")]),
        ("tls", Json.bool true)])
      (Json.str "dns:host:80") [("extra", Json.str "1")] [] "Authorization" "Bearer 007"
      rfl rfl rfl rfl rfl (by decide) (by decide) ?_,
    from_file_loading_spec.2.2 "pim.json" (some cfgTlsTrue)
      ⟨[("extra", Json.str "1")], Json.bool true, Json.str "dns:host:80",
        some (pyReplace "Bearer 007" "Bearer " "")⟩ ?_ rfl⟩
  · intro p hp
    simp only [List.mem_singleton] at hp
    subst hp
    left
    decide
  · exact from_file_loading_spec.2.1 "pim.json" cfgTlsTrue
      (Json.obj [("uri", Json.str "dns:host:80"),
        ("headers", Json.obj [("extra", Json.str "1"),
          ("Authorization", Json.str "Bearer 007")]),
        ("tls", Json.bool true)])
      (Json.str "dns:host:80") [("extra", Json.str "1")] [] "Authorization" "Bearer 007"
      rfl rfl rfl rfl rfl (by decide) (by decide)
      (by intro p hp
          simp only [List.mem_singleton] at hp
          subst hp
          left
          decide)

/-- C8 counterexample: the version gate uses the Python `!=` between the
decoded value and the int `1`, and Python booleans compare equal to ints
(`True == 1`), so a configuration whose `version` entry is the JSON `true`
— a value different from the number 1 — is accepted rather than rejected
with `InvalidConfigurationError`. -/
theorem from_file_version_true_counterexample :
    cfgVersionTrue.index "version" = .ok (Json.bool true) ∧
    Json.bool true ≠ Json.num 1 ∧
    Configuration.from_file "pim.json" (some cfgVersionTrue) =
      .ok ⟨[("k", Json.str "v")], Json.bool false, Json.str "dns:host:80", none⟩ := by
  refine ⟨rfl, fun h => ?_, rfl⟩
  cases h

/-- C8 (amended): malformed JSON, a `version` entry that is not
Python-equal to 1 (booleans compare as ints, so `true` counts as 1), a
missing `tls`, `uri` or `headers` entry in the `pim` object, and
`tls=true` with no header passing the bearer scan each fail with
`InvalidConfigurationError`, whose message contains respectively `"json"`,
`"version"`, the missing key name, and the authorization-requirement
phrase. -/
theorem from_file_invalid_inputs_fail :
    (∀ path : String, Configuration.from_file path none =
        .error (.invalidConfiguration path "Invalid json.") ∧
      ∃ u w, (LoadError.invalidConfiguration path "Invalid json.").message =
        u ++ ("json" ++ w)) ∧
    (∀ (path : String) (cfg version : Json), cfg.index "version" = .ok version →
      pyEqOne version = false →
      Configuration.from_file path (some cfg) =
          .error (.invalidConfiguration path
            ("Unsupported version \"" ++ pyStr version ++
              "\".Consider upgrading ansys-platform-instancemanagement.")) ∧
        ∃ u w, (LoadError.invalidConfiguration path
            ("Unsupported version \"" ++ pyStr version ++
              "\".Consider upgrading ansys-platform-instancemanagement.")).message =
          u ++ ("version" ++ w)) ∧
    (∀ (path : String) (cfg pim : Json), cfg.index "version" = .ok (Json.num 1) →
      cfg.index "pim" = .ok pim →
      pim.index "tls" = .error (.keyError "tls") →
      Configuration.from_file path (some cfg) =
          .error (.invalidConfiguration path
            "The configuration is missing the entry tls.") ∧
        ∃ u w, (LoadError.invalidConfiguration path
            "The configuration is missing the entry tls.").message =
          u ++ ("tls" ++ w)) ∧
    (∀ (path : String) (cfg pim tls : Json), cfg.index "version" = .ok (Json.num 1) →
      cfg.index "pim" = .ok pim →
      pim.index "tls" = .ok tls →
      pim.index "uri" = .error (.keyError "uri") →
      Configuration.from_file path (some cfg) =
          .error (.invalidConfiguration path
            "The configuration is missing the entry uri.") ∧
        ∃ u w, (LoadError.invalidConfiguration path
            "The configuration is missing the entry uri.").message =
          u ++ ("uri" ++ w)) ∧
    (∀ (path : String) (cfg pim tls uri : Json), cfg.index "version" = .ok (Json.num 1) →
      cfg.index "pim" = .ok pim →
      pim.index "tls" = .ok tls →
      pim.index "uri" = .ok uri →
      pim.index "headers" = .error (.keyError "headers") →
      Configuration.from_file path (some cfg) =
          .error (.invalidConfiguration path
            "The configuration is missing the entry headers.") ∧
        ∃ u w, (LoadError.invalidConfiguration path
            "The configuration is missing the entry headers.").message =
          u ++ ("headers" ++ w)) ∧
    (∀ (path : String) (cfg pim uri : Json) (hs0 : List (String × Json)),
      cfg.index "version" = .ok (Json.num 1) →
      cfg.index "pim" = .ok pim →
      pim.index "tls" = .ok (Json.bool true) →
      pim.index "uri" = .ok uri →
      pim.index "headers" = .ok (Json.obj hs0) →
      findBearer hs0 = .ok none →
      Configuration.from_file path (some cfg) =
          .error (.invalidConfiguration path
            ("An authorization header with a bearer token is required" ++
              " for a secure connection.")) ∧
        ∃ u w, (LoadError.invalidConfiguration path
            ("An authorization header with a bearer token is required" ++
              " for a secure connection.")).message =
          u ++ ("An authorization header with a bearer token is required" ++ w)) := by
  refine ⟨fun path => ⟨rfl, message_token path _ "Invalid " "." "json" (by decide)⟩,
    fun path cfg version hv hne => ⟨?_, ?_⟩,
    fun path cfg pim hv hp ht => ⟨?_, ?_⟩,
    fun path cfg pim tls hv hp ht hu => ⟨?_, ?_⟩,
    fun path cfg pim tls uri hv hp ht hu hh => ⟨?_, ?_⟩,
    fun path cfg pim uri hs0 hv hp ht hu hh hf => ⟨?_, ?_⟩⟩
  · simp [Configuration.from_file, hv, hne]
  · refine message_token path _ "Unsupported "
      (" \"" ++ pyStr version ++ "\".Consider upgrading ansys-platform-instancemanagement.")
      "version" ?_
    apply String.ext
    simp [String.data_append, List.append_assoc]
  · simp [Configuration.from_file, hv, hp, ht, pyEqOne]
  · exact message_token path _ "The configuration is missing the entry " "." "tls"
      (by decide)
  · simp [Configuration.from_file, hv, hp, ht, hu, pyEqOne]
  · exact message_token path _ "The configuration is missing the entry " "." "uri"
      (by decide)
  · simp [Configuration.from_file, hv, hp, ht, hu, hh, pyEqOne]
  · exact message_token path _ "The configuration is missing the entry " "." "headers"
      (by decide)
  · simp [Configuration.from_file, hv, hp, ht, hu, hh, hf, pyEqOne, jsonTruthy]
  · exact message_token path _ "" " for a secure connection."
      "An authorization header with a bearer token is required" (by decide)

/-- Witness for C8 at concrete configuration documents. -/
theorem from_file_invalid_inputs_fail_witness :
    (Configuration.from_file "pim.json" none =
      .error (.invalidConfiguration "pim.json" "Invalid json.")) ∧
    (Configuration.from_file "pim.json" (some cfgVersionTwo) =
      .error (.invalidConfiguration "pim.json"
        ("Unsupported version \"" ++ pyStr (Json.num 2) ++
          "\".Consider upgrading ansys-platform-instancemanagement."))) ∧
    (Configuration.from_file "pim.json" (some cfgMissingTls) =
      .error (.invalidConfiguration "pim.json"
        "The configuration is missing the entry tls.")) ∧
    (Configuration.from_file "pim.json" (some cfgMissingUri) =
      .error (.invalidConfiguration "pim.json"
        "The configuration is missing the entry uri.")) ∧
    (Configuration.from_file "pim.json" (some cfgMissingHeaders) =
      .error (.invalidConfiguration "pim.json"
        "The configuration is missing the entry headers.")) ∧
    (Configuration.from_file "pim.json" (some cfgNoBearer) =
      .error (.invalidConfiguration "pim.json"
        ("An authorization header with a bearer token is required" ++
          " for a secure connection."))) :=
  ⟨(from_file_invalid_inputs_fail.1 "pim.json").1,
    (from_file_invalid_inputs_fail.2.1 "pim.json" cfgVersionTwo (Json.num 2) rfl
      (by decide)).1,
    (from_file_invalid_inputs_fail.2.2.1 "pim.json" cfgMissingTls
      (Json.obj [("uri", Json.str "dns:host:80"), ("headers", Json.obj [])])
      rfl rfl rfl).1,
    (from_file_invalid_inputs_fail.2.2.2.1 "pim.json" cfgMissingUri
      (Json.obj [("headers", Json.obj []), ("tls", Json.bool false)])
      (Json.bool false) rfl rfl rfl rfl).1,
    (from_file_invalid_inputs_fail.2.2.2.2.1 "pim.json" cfgMissingHeaders
      (Json.obj [("uri", Json.str "dns:host:80"), ("tls", Json.bool false)])
      (Json.bool false) (Json.str "dns:host:80") rfl rfl rfl rfl rfl).1,
    (from_file_invalid_inputs_fail.2.2.2.2.2 "pim.json" cfgNoBearer
      (Json.obj [("uri", Json.str "dns:host:80"),
        ("headers", Json.obj [("token", Json.str "007"),
          ("identity", Json.str "james bond")]),
        ("tls", Json.bool true)])
      (Json.str "dns:host:80")
      [("token", Json.str "007"), ("identity", Json.str "james bond")]
      rfl rfl rfl rfl rfl rfl).1⟩

/-- C10: on a secure configuration `Configuration.from_file` selects the
first header in insertion order whose key begins with `authorization` under
a case-insensitive prefix match (a key such as `Authorization-Extra` also
qualifies) and whose value begins with `Bearer `; only that header is used
and removed, and `access_token` is the value with every occurrence of the
substring `"Bearer "` removed, not only the leading prefix (for example
`"Bearer Bearer abc"` yields `"abc"`). -/
theorem from_file_bearer_selection (config_path : String) (cfg pim uri : Json)
    (pre post : List (String × Json)) (k v : String)
    (hv : cfg.index "version" = .ok (Json.num 1))
    (hp : cfg.index "pim" = .ok pim)
    (ht : pim.index "tls" = .ok (Json.bool true))
    (hu : pim.index "uri" = .ok uri)
    (hh : pim.index "headers" = .ok (Json.obj (pre ++ (k, Json.str v) :: post)))
    (hk : ciStartsWithAuth k = true)
    (hb : strStartsWith v "Bearer " = true)
    (hs : ∀ p ∈ pre, skipsBearer p) :
    Configuration.from_file config_path (some cfg) =
      .ok ⟨pre ++ post, Json.bool true, uri, some (pyReplace v "Bearer " "")⟩ ∧
    ciStartsWithAuth "Authorization-Extra" = true ∧
    pyReplace "Bearer Bearer abc" "Bearer " "" = "abc" :=
  ⟨from_file_tls_true_ok config_path cfg pim (Json.bool true) uri pre post k v
    hv hp ht rfl hu hh hk hb hs, by decide, by decide⟩

/-- Witness for C10 at a concrete secure configuration. -/
theorem from_file_bearer_selection_witness :
    Configuration.from_file "pim.json" (some cfgBearerBearer) =
      .ok ⟨[], Json.bool true, Json.str "dns:host:80",
        some (pyReplace "Bearer Bearer q" "Bearer " "")⟩ :=
  (from_file_bearer_selection "pim.json" cfgBearerBearer
    (Json.obj [("uri", Json.str "dns:host:80"),
      ("headers", Json.obj [("authorization", Json.str "Bearer Bearer q")]),
      ("tls", Json.bool true)])
    (Json.str "dns:host:80") [] [] "authorization" "Bearer Bearer q"
    rfl rfl rfl rfl rfl (by decide) (by decide) (fun p hp => by cases hp)).1

/-- C9: the header-adding interceptor, on every call shape, appends exactly
the configured pairs in order after the caller's per-call metadata (absent
metadata treated as empty), leaves method, timeout and credentials
untouched, and passes the request flow through unchanged with no
postprocessing. -/
theorem header_adder_appends_configured_pairs {ρ σ : Type}
    (headers : List (String × String)) (details : ClientCallDetails)
    (request : ρ) (request_iterator : List ρ)
    (cont : ClientCallDetails → ρ → σ) (contS : ClientCallDetails → List ρ → σ) :
    intercept_unary_unary (header_adder_intercept_call headers) cont details request =
        some (cont
          ⟨details.method, details.timeout, some (details.metadata.getD [] ++ headers),
            details.credentials⟩ request) ∧
    intercept_unary_stream (header_adder_intercept_call headers) cont details request =
        some (cont
          ⟨details.method, details.timeout, some (details.metadata.getD [] ++ headers),
            details.credentials⟩ request) ∧
    intercept_stream_unary (header_adder_intercept_call headers) contS details
        request_iterator =
      contS
        ⟨details.method, details.timeout, some (details.metadata.getD [] ++ headers),
          details.credentials⟩ request_iterator ∧
    intercept_stream_stream (header_adder_intercept_call headers) contS details
        request_iterator =
      contS
        ⟨details.method, details.timeout, some (details.metadata.getD [] ++ headers),
          details.credentials⟩ request_iterator := by
  cases h : details.metadata <;>
    simp [intercept_unary_unary, intercept_unary_stream, intercept_stream_unary,
      intercept_stream_stream, header_adder_intercept_call, h]

end Pim
